import Mathlib

/-!
Verification development for the deal-flow backend (an Express server over an
external relational store).  The repository holds three near-duplicate
revisions of one server file: src/server.js (the named revision),
src/unnamed/part_000 (a minimal revision) and src/unnamed/part_001 (a revision
with a robust profile handler and a null-guarded admin check).

Shallow embedding conventions:
* a JSON request body or table row is an association list of string fields;
* the external store is a record of three tables plus a fresh-id counter;
* reads from the store are pure lookups (a single-row read that matches no
  row is the error path of .single); write calls that the code checks are
  given an explicit success flag, and webhook-log inserts, whose result the
  code always discards, are given a flag that only decides whether the row
  lands (a failed log insert never fails the request, matching the source);
* the mail relay and the outbound HTTP POST get explicit success flags;
* responses are status codes paired with the payload the handler sends.
-/

namespace DealFlow

/-- A JSON-like request body or table row: an association list of fields. -/
abbrev Row := List (String × String)

/-- First-match field lookup on a row. -/
def getField (r : Row) (k : String) : Option String :=
  (r.find? (fun p => p.1 = k)).map (fun p => p.2)

/-- Object-spread override as in the google-form handler: the literal fields
written after the spread win over whatever the body supplied for them.
The new binding is prepended and shadows any earlier one, which under the
first-match lookup of getField is exactly the override semantics of a
spread followed by literal fields. -/
def setField (r : Row) (k : String) (v : String) : Row :=
  (k, v) :: r

/-- JS truthiness of an optional string: present and nonempty. -/
def jsTruthy (o : Option String) : Bool :=
  match o with
  | some s => s ≠ ""
  | none => false

/-- JS short-circuit or with a string default, as in ua or unknown. -/
def jsOr (o : Option String) (d : String) : String :=
  match o with
  | some s => if s = "" then d else s
  | none => d

/-- JS short-circuit or with null, as in dealId or null. -/
def jsOrNull (o : Option String) : Option String :=
  if jsTruthy o then o else none

/-- Local part of an email address: in the source, email.split at the
at-sign, index 0, which is the run of characters before the first at-sign
(the whole string when none occurs).  Embedded on the character list so
that it evaluates inside the kernel. -/
def localPart (email : String) : String :=
  String.mk (email.data.takeWhile (fun c => c ≠ '@'))

/-- The identity the auth provider resolves a valid token to. -/
structure AuthUser where
  id : String
  email : String
  full_name : Option String
deriving DecidableEq, Repr

/-- A row of the user_profiles table. -/
structure Profile where
  id : String
  username : String
  email : String
  role : String
  full_name : Option String
deriving DecidableEq, Repr

/-- A row of the webhook_logs table.  The details payload keeps optional
values because the handlers copy possibly-absent body fields into it. -/
structure LogRow where
  business_idea_id : Option String
  action : String
  triggered_by : String
  status : String
  details : List (String × Option String)
  triggered_at : Nat
deriving DecidableEq, Repr

/-- The external store: the three tables the server touches, plus the
counter the store draws generated deal ids from. -/
structure Store where
  business_ideas : List (String × Row)
  webhook_logs : List LogRow
  user_profiles : List Profile
  nextId : Nat
deriving DecidableEq, Repr

/-- Environment-derived configuration: whether the SMTP transporter was
created (all three SMTP credentials present), and the raw WEBHOOK_SECRET
environment variable (none when unset; some empty string when set but
empty, which every truthiness check in the source treats as unset). -/
structure Config where
  smtpConfigured : Bool
  webhookSecret : Option String
deriving DecidableEq, Repr

/-- Single-row profile read: user_profiles filtered by id, .single. -/
def findProfile (st : Store) (uid : String) : Option Profile :=
  st.user_profiles.find? (fun p => p.id = uid)

/-- Single-row deal read: business_ideas filtered by id, .single. -/
def findDeal (st : Store) (i : String) : Option Row :=
  (st.business_ideas.find? (fun p => p.1 = i)).map (fun p => p.2)

/-- Deal read keyed by a possibly-missing request field; a missing id
matches no row, which .single reports as an error. -/
def findDealReq (st : Store) (dealId : Option String) : Option Row :=
  dealId.bind (findDeal st)

/-- Append a webhook_logs row (the table is append-only in this system). -/
def appendLog (st : Store) (l : LogRow) : Store :=
  { st with webhook_logs := st.webhook_logs ++ [l] }

/-- External calls a handler performs, in order. -/
inductive Eff where
  | dbRead (table : String)
  | dbWrite (table : String)
  | mailSend (addr : String)
  | httpPost (url : String) (secretHeader : String)
deriving DecidableEq, Repr

/-- Outcome of the verifyAuth middleware around a protected handler. -/
inductive AuthResult (α : Type) where
  | unauthenticated (msg : String)
  | done (r : α)
deriving DecidableEq, Repr

/-- HTTP status of an auth-wrapped response: a rejected request is 401, an
accepted one has whatever status the inner handler chose. -/
def AuthResult.status (f : α → Nat) : AuthResult α → Nat
  | .unauthenticated _ => 401
  | .done r => f r

/-- The header test of verifyAuth: authHeader.startsWith applied to the
literal Bearer-plus-space, embedded as a character-list test so that it
evaluates inside the kernel. -/
def bearerOk (h : String) : Bool :=
  "Bearer ".data.isPrefixOf h.data

/-- True exactly when verifyAuth rejects before contacting the provider:
header absent, or not starting with the Bearer prefix. -/
def malformedAuth (hdr : Option String) : Bool :=
  match hdr with
  | none => true
  | some h => !(bearerOk h)

/-- Embeds the verifyAuth middleware (src/server.js lines 44 to 65) wrapped
around a protected handler.  getUser is the external identity provider:
none covers both a provider error and an empty result (and the catch arm),
all of which answer 401 before the handler runs.  The effect list records
every external-store or outbound call the request performed. -/
def withAuth (getUser : String → Option AuthUser) (hdr : Option String)
    (handler : AuthUser → Store → α × Store × List Eff) (st : Store) :
    AuthResult α × Store × List Eff :=
  match hdr with
  | none => (.unauthenticated "No token provided", st, [])
  | some h =>
    if bearerOk h then
      match getUser (h.drop 7) with
      | none => (.unauthenticated "Invalid token", st, [])
      | some u =>
        let r := handler u st
        (.done r.1, r.2.1, r.2.2)
    else (.unauthenticated "No token provided", st, [])

/-- The user_profiles listing query of the admin endpoint: all rows ordered
by username ascending. -/
def usersListQuery (st : Store) : List Profile :=
  st.user_profiles.mergeSort (fun a b => decide (a.username ≤ b.username))

/-- Embeds the GET /api/users handler of src/server.js lines 369 to 392.
The code destructures only data from the role read and never checks the
error, so when no profile row exists the profile variable is null and
reading role off it throws, landing in the catch arm as a 500. -/
def getUsers (u : AuthUser) (st : Store) : Nat × Option (List Profile) :=
  match findProfile st u.id with
  | none => (500, none)
  | some p =>
    if p.role ≠ "admin" then (403, none)
    else (200, some (usersListQuery st))

/-- Embeds the GET /api/users handler of src/unnamed/part_001 lines 441 to
469, which guards the null case: absent profile or non-admin role is 403. -/
def getUsersRobust (u : AuthUser) (st : Store) : Nat × Option (List Profile) :=
  match findProfile st u.id with
  | none => (403, none)
  | some p =>
    if p.role ≠ "admin" then (403, none)
    else (200, some (usersListQuery st))

/-- Embeds the GET /api/user/profile handler of src/server.js lines 353 to
366: return the row, or throw the read error into the catch arm as 500. -/
def getUserProfile (u : AuthUser) (st : Store) : Nat × Option Profile :=
  match findProfile st u.id with
  | none => (500, none)
  | some p => (200, some p)

/-- The default profile the robust handler synthesizes for a caller with no
row: username is the local part of the email, role is user. -/
def defaultProfile (u : AuthUser) : Profile :=
  { id := u.id
    username := localPart u.email
    email := u.email
    role := "user"
    full_name := u.full_name }

/-- Embeds the GET /api/user/profile handler of src/unnamed/part_001 lines
385 to 438 (the robust revision): if a row exists return it; otherwise
synthesize the default profile and try to insert it; if the insert fails,
still answer 200 with the synthesized profile. -/
def getUserProfileRobust (u : AuthUser) (insertOk : Bool) (st : Store) :
    Nat × Profile × Store :=
  match findProfile st u.id with
  | some p => (200, p, st)
  | none =>
    let np := defaultProfile u
    if insertOk then
      (200, np, { st with user_profiles := st.user_profiles ++ [np] })
    else (200, np, st)

/-- The send_outreach log row written after a successful email send. -/
def sendLog (u : AuthUser) (dealId : Option String) (deal : Row) (now : Nat) :
    LogRow :=
  { business_idea_id := dealId
    action := "send_outreach"
    triggered_by := u.email
    status := "success"
    details := [("email_sent_to", getField deal "contact_email")]
    triggered_at := now }

/-- Embeds the POST /api/webhook/send-outreach handler of src/server.js
lines 131 to 182.  With no transporter the answer is 503 before any store
or relay call.  A failed deal read throws (500).  sendOk is the mail
relay outcome: a throw there is a 500 before the log write.  The log
insert result is discarded by the code, so logOk only decides whether the
row lands, never the response. -/
def sendOutreach (cfg : Config) (u : AuthUser) (dealId : Option String)
    (sendOk logOk : Bool) (now : Nat) (st : Store) :
    Nat × Store × List Eff :=
  if !cfg.smtpConfigured then (503, st, [])
  else
    match findDealReq st dealId with
    | none => (500, st, [.dbRead "business_ideas"])
    | some deal =>
      let sendTo := jsOr (getField deal "contact_email") ""
      if !sendOk then
        (500, st, [.dbRead "business_ideas", .mailSend sendTo])
      else
        let st1 := if logOk then appendLog st (sendLog u dealId deal now) else st
        (200, st1,
          [.dbRead "business_ideas", .mailSend sendTo, .dbWrite "webhook_logs"])

/-- The form_submission log row referencing a freshly created deal id. -/
def formLog (newId : String) (now : Nat) : LogRow :=
  { business_idea_id := some newId
    action := "form_submission"
    triggered_by := "google_form"
    status := "success"
    details := []
    triggered_at := now }

/-- The row the form webhook inserts: the body spread first, then the two
literal fields, so the literals win over anything the body supplied. -/
def formRow (body : Row) : Row :=
  setField (setField body "source" "google_form") "stage" "submitted"

/-- Embeds the POST /api/webhook/google-form handler of src/server.js lines
185 to 212: spread the body, force source and stage to fixed literals,
insert as a new deal (checked: a store error is a 500 with nothing
written), then append a form_submission log referencing the new id (the
log insert result is discarded, so logOk never changes the response). -/
def googleFormWebhook (body : Row) (insertOk logOk : Bool) (now : Nat)
    (st : Store) : Nat × Store :=
  if !insertOk then (500, st)
  else
    let newId := toString st.nextId
    let st1 := { st with
      business_ideas := st.business_ideas ++ [(newId, formRow body)]
      nextId := st.nextId + 1 }
    let st2 := if logOk then appendLog st1 (formLog newId now) else st1
    (201, st2)

/-- The fields the external webhook echoes back, plus a server timestamp. -/
structure EchoData where
  dealId : Option String
  email : Option String
  companyName : Option String
  contactName : Option String
  industry : Option String
  fundingAmount : Option String
  description : Option String
  website : Option String
  timestamp : Nat
deriving DecidableEq, Repr

/-- The echo payload: the eight destructured body fields plus the time. -/
def echoOf (body : Row) (now : Nat) : EchoData :=
  { dealId := getField body "dealId"
    email := getField body "email"
    companyName := getField body "companyName"
    contactName := getField body "contactName"
    industry := getField body "industry"
    fundingAmount := getField body "fundingAmount"
    description := getField body "description"
    website := getField body "website"
    timestamp := now }

/-- The outreach_external log row: deal id from the body (or null when the
field is falsy), a synthetic actor, the user agent as the platform. -/
def extLog (body : Row) (userAgent : Option String) (now : Nat) : LogRow :=
  { business_idea_id := jsOrNull (getField body "dealId")
    action := "outreach_external"
    triggered_by := "make_com_or_ghl"
    status := "success"
    details :=
      [("email_sent_to", getField body "email"),
       ("company_name", getField body "companyName"),
       ("platform", some (jsOr userAgent "unknown"))]
    triggered_at := now }

/-- Embeds the POST /api/webhook/outreach-external handler of src/server.js
lines 216 to 270.  When the WEBHOOK_SECRET environment value is truthy, a
header differing from it is 401 with nothing written; otherwise the check
is skipped.  Past the check, one outreach_external log row is written
(result discarded) and the body fields are echoed with a timestamp. -/
def outreachExternal (cfg : Config) (secretHdr : Option String)
    (userAgent : Option String) (body : Row) (logOk : Bool) (now : Nat)
    (st : Store) : Nat × Option EchoData × Store :=
  if jsTruthy cfg.webhookSecret && !(secretHdr == some (jsOr cfg.webhookSecret "")) then
    (401, none, st)
  else
    let st1 := if logOk then appendLog st (extLog body userAgent now) else st
    (200, some (echoOf body now), st1)

/-- The value of the X-Webhook-Secret header on the outbound POST: the raw
environment value with an empty-string fallback. -/
def outboundSecret (cfg : Config) : String :=
  (cfg.webhookSecret).getD ""

/-- The trigger_outreach log row. -/
def triggerLog (u : AuthUser) (dealId : Option String)
    (webhookUrl : Option String) (deal : Row) (now : Nat) : LogRow :=
  { business_idea_id := dealId
    action := "trigger_outreach"
    triggered_by := u.email
    status := "success"
    details :=
      [("webhook_url", webhookUrl),
       ("company_name", getField deal "business_name")]
    triggered_at := now }

/-- Embeds the POST /api/webhook/trigger-outreach handler of src/server.js
lines 274 to 334.  A failed deal read throws (500).  A truthy webhookUrl
triggers an outbound POST whose X-Webhook-Secret header is the configured
secret or the empty string; a non-ok response throws (500) before the log
write.  Only then is the trigger_outreach log appended (result discarded,
so logOk never changes the response). -/
def triggerOutreach (cfg : Config) (u : AuthUser) (dealId : Option String)
    (webhookUrl : Option String) (postOk logOk : Bool) (now : Nat)
    (st : Store) : Nat × Store × List Eff :=
  match findDealReq st dealId with
  | none => (500, st, [.dbRead "business_ideas"])
  | some deal =>
    if jsTruthy webhookUrl then
      let post := Eff.httpPost (jsOr webhookUrl "") (outboundSecret cfg)
      if !postOk then (500, st, [.dbRead "business_ideas", post])
      else
        let st1 :=
          if logOk then appendLog st (triggerLog u dealId webhookUrl deal now)
          else st
        (200, st1, [.dbRead "business_ideas", post, .dbWrite "webhook_logs"])
    else
      let st1 :=
        if logOk then appendLog st (triggerLog u dealId webhookUrl deal now)
        else st
      (200, st1, [.dbRead "business_ideas", .dbWrite "webhook_logs"])

/-- The webhook_logs listing query of src/server.js lines 337 to 350: all
rows with the embedded deal join, ordered by triggered_at descending,
limited to 50. -/
def webhookLogsQuery (st : Store) : List (LogRow × Option Row) :=
  ((st.webhook_logs.mergeSort
      (fun a b => decide (b.triggered_at ≤ a.triggered_at))).take 50).map
    (fun l => (l, l.business_idea_id.bind (findDeal st)))

/-- Embeds the GET /api/webhooks handler of src/server.js lines 337 to 350. -/
def getWebhooks (_u : AuthUser) (st : Store) :
    Nat × List (LogRow × Option Row) :=
  (200, webhookLogsQuery st)

/-- Embeds the DELETE /api/deals/:id handler of src/server.js lines 116 to
128: remove every row matching the id (deleting zero rows is not an
error), answer a fixed message; deleteOk is the store call outcome (an
error throws into the 500 arm with nothing removed). -/
def deleteDeal (_u : AuthUser) (delId : String) (deleteOk : Bool)
    (st : Store) : Nat × Option String × Store :=
  if deleteOk then
    (200, some "Deal deleted successfully",
      { st with business_ideas := st.business_ideas.filter (fun p => p.1 ≠ delId) })
  else (500, none, st)

/-! Sample data used by witnesses and counterexamples. -/

def uAdmin : AuthUser :=
  { id := "u-admin", email := "boss@corp.com", full_name := none }

def uPlain : AuthUser :=
  { id := "u-plain", email := "alice@x.com", full_name := none }

def uNew : AuthUser :=
  { id := "u-new", email := "newbie@x.com", full_name := none }

def pAdmin : Profile :=
  { id := "u-admin", username := "boss", email := "boss@corp.com",
    role := "admin", full_name := none }

def pPlain : Profile :=
  { id := "u-plain", username := "alice", email := "alice@x.com",
    role := "user", full_name := none }

def deal1 : Row :=
  [("business_name", "Acme"), ("contact_name", "Bob"),
   ("contact_email", "bob@acme.com"), ("industry", "retail")]

def st0 : Store :=
  { business_ideas := [("d1", deal1)], webhook_logs := [],
    user_profiles := [pAdmin, pPlain], nextId := 7 }

def logA : LogRow :=
  { business_idea_id := some "d1", action := "form_submission",
    triggered_by := "google_form", status := "success", details := [],
    triggered_at := 9 }

def logB : LogRow :=
  { business_idea_id := none, action := "outreach_external",
    triggered_by := "make_com_or_ghl", status := "success", details := [],
    triggered_at := 5 }

def logC : LogRow :=
  { business_idea_id := some "missing", action := "trigger_outreach",
    triggered_by := "alice@x.com", status := "success", details := [],
    triggered_at := 7 }

def stL : Store :=
  { business_ideas := [("d1", deal1)], webhook_logs := [logB, logA, logC],
    user_profiles := [pAdmin, pPlain], nextId := 7 }

def cfgOff : Config := { smtpConfigured := false, webhookSecret := none }

def cfgOn : Config := { smtpConfigured := true, webhookSecret := none }

def cfgSec : Config := { smtpConfigured := false, webhookSecret := some "sekret" }

def formBody : Row :=
  [("source", "hacked"), ("stage", "evil"), ("business_name", "Acme")]

/-! Helper lemmas about field lookup after a spread override. -/

theorem getField_setField_self (r : Row) (k v : String) :
    getField (setField r k v) k = some v := by
  simp [getField, setField]

theorem getField_setField_ne (r : Row) (k v k2 : String) (h : k2 ≠ k) :
    getField (setField r k v) k2 = getField r k2 := by
  simp [getField, setField, List.find?_cons, Ne.symm h]

/-! Helper lemmas about the two ordered queries. -/

theorem usersListQuery_perm (st : Store) :
    (usersListQuery st).Perm st.user_profiles :=
  List.mergeSort_perm st.user_profiles _

theorem usersListQuery_sorted (st : Store) :
    List.Pairwise (fun a b : Profile => a.username ≤ b.username)
      (usersListQuery st) := by
  have htrans : ∀ a b c : Profile,
      (fun a b : Profile => decide (a.username ≤ b.username)) a b = true →
      (fun a b : Profile => decide (a.username ≤ b.username)) b c = true →
      (fun a b : Profile => decide (a.username ≤ b.username)) a c = true := by
    intro a b c hab hbc
    simp only [decide_eq_true_eq] at hab hbc ⊢
    exact le_trans hab hbc
  have htot : ∀ a b : Profile,
      ((fun a b : Profile => decide (a.username ≤ b.username)) a b ||
       (fun a b : Profile => decide (a.username ≤ b.username)) b a) = true := by
    intro a b
    simp only [Bool.or_eq_true, decide_eq_true_eq]
    exact le_total a.username b.username
  exact (List.sorted_mergeSort htrans htot st.user_profiles).imp
    (fun hx => of_decide_eq_true hx)

theorem webhookLogsQuery_length (st : Store) :
    (webhookLogsQuery st).length ≤ 50 := by
  rw [webhookLogsQuery, List.length_map, List.length_take]
  exact min_le_left _ _

theorem webhookLogsQuery_sorted (st : Store) :
    List.Pairwise (fun a b : LogRow × Option Row =>
      b.1.triggered_at ≤ a.1.triggered_at) (webhookLogsQuery st) := by
  have htrans : ∀ a b c : LogRow,
      (fun a b : LogRow => decide (b.triggered_at ≤ a.triggered_at)) a b = true →
      (fun a b : LogRow => decide (b.triggered_at ≤ a.triggered_at)) b c = true →
      (fun a b : LogRow => decide (b.triggered_at ≤ a.triggered_at)) a c = true := by
    intro a b c hab hbc
    simp only [decide_eq_true_eq] at hab hbc ⊢
    exact le_trans hbc hab
  have htot : ∀ a b : LogRow,
      ((fun a b : LogRow => decide (b.triggered_at ≤ a.triggered_at)) a b ||
       (fun a b : LogRow => decide (b.triggered_at ≤ a.triggered_at)) b a) = true := by
    intro a b
    simp only [Bool.or_eq_true, decide_eq_true_eq]
    exact le_total b.triggered_at a.triggered_at
  have hsorted := (List.sorted_mergeSort htrans htot st.webhook_logs).imp
    (fun hx => of_decide_eq_true hx)
  have htake : List.Pairwise
      (fun a b : LogRow => b.triggered_at ≤ a.triggered_at)
      ((st.webhook_logs.mergeSort
        (fun a b => decide (b.triggered_at ≤ a.triggered_at))).take 50) :=
    List.Pairwise.sublist (List.take_sublist _ _) hsorted
  rw [webhookLogsQuery]
  exact (List.pairwise_map).mpr htake

theorem webhookLogsQuery_join (st : Store) :
    ∀ x ∈ webhookLogsQuery st,
      x.2 = x.1.business_idea_id.bind (findDeal st) := by
  intro x hx
  rw [webhookLogsQuery] at hx
  obtain ⟨l, _, rfl⟩ := List.mem_map.mp hx
  rfl

/-! Theorems settling the claims. -/

/-- C1: for the admin-only user listing, a valid token whose profile row has
role not equal to admin yields 403, and role admin yields the full profile
list ordered by username; but in the server.js revision an ABSENT profile
row yields 500, not the claimed 403 (the handler reads role off a null row
and the throw lands in the generic catch arm), while the part_001 revision
yields 403 there. -/
theorem C1_admin_listing_gate :
    (findProfile st0 uNew.id = none ∧ (getUsers uNew st0).1 = 500 ∧
      (getUsersRobust uNew st0).1 = 403) ∧
    getUsers uPlain st0 = (403, none) ∧
    getUsers uAdmin st0 = (200, some (usersListQuery st0)) ∧
    usersListQuery st0 = [pPlain, pAdmin] ∧
    (∀ st : Store, (usersListQuery st).Perm st.user_profiles ∧
      List.Pairwise (fun a b : Profile => a.username ≤ b.username)
        (usersListQuery st)) := by
  refine ⟨by decide, by decide, ?_, ?_,
    fun st => ⟨usersListQuery_perm st, usersListQuery_sorted st⟩⟩
  · have h : findProfile st0 uAdmin.id = some pAdmin := by decide
    simp [getUsers, h, pAdmin]
  · simp +decide [usersListQuery, st0, List.mergeSort, pAdmin, pPlain]

/-- C2 counterexample: in the server.js revision the profile fetch DOES
return an error response for a successfully authenticated caller: with no
profile row the single-row read errors and the handler answers 500. -/
theorem C2_counterexample :
    findProfile st0 uNew.id = none ∧ (getUserProfile uNew st0).1 = 500 := by
  decide

/-- C2 amended: in the robust revision (src/unnamed/part_001) the profile
fetch never returns an error response: a missing row yields a synthesized
default profile whose username is the local part of the email and whose
role is user, returned with 200 even when the insert fails; a present row
is returned as is.  In the server.js revision a missing row yields 500. -/
theorem C2_profile_bootstrap (u : AuthUser) (insertOk : Bool) (st : Store) :
    (getUserProfileRobust u insertOk st).1 = 200 ∧
    (findProfile st u.id = none →
      (getUserProfileRobust u insertOk st).2.1 = defaultProfile u ∧
      (defaultProfile u).username = localPart u.email ∧
      (defaultProfile u).role = "user" ∧
      (insertOk = false → (getUserProfileRobust u insertOk st).2.2 = st)) ∧
    (∀ p, findProfile st u.id = some p →
      getUserProfileRobust u insertOk st = (200, p, st)) ∧
    (findProfile st u.id = none → (getUserProfile u st).1 = 500) := by
  cases hf : findProfile st u.id with
  | none =>
    cases insertOk <;>
      simp [getUserProfileRobust, getUserProfile, hf, defaultProfile, localPart]
  | some p =>
    simp [getUserProfileRobust, getUserProfile, hf]

/-- C2 witness: a caller with no profile row, failing insert: the robust
handler still answers 200 with the synthesized default profile and leaves
the store unchanged. -/
theorem C2_profile_bootstrap_witness :
    (getUserProfileRobust uNew false st0).1 = 200 ∧
    (getUserProfileRobust uNew false st0).2.1 = defaultProfile uNew ∧
    (getUserProfileRobust uNew false st0).2.2 = st0 := by
  have h := C2_profile_bootstrap uNew false st0
  have h2 := h.2.1 (by decide)
  exact ⟨h.1, h2.1, h2.2.2.2 rfl⟩

/-- C3: direct-send outreach with no transporter answers 503 with no deal
fetch, no send and no log write; a failed deal fetch or a failed relay
send leaves the store (hence the webhook log) unchanged; the
send_outreach log is appended only after the send succeeded. -/
theorem C3_send_outreach_guard (cfg : Config) (u : AuthUser)
    (dealId : Option String) (sendOk logOk : Bool) (now : Nat) (st : Store) :
    (cfg.smtpConfigured = false →
      sendOutreach cfg u dealId sendOk logOk now st = (503, st, [])) ∧
    (findDealReq st dealId = none →
      (sendOutreach cfg u dealId sendOk logOk now st).2.1 = st) ∧
    (sendOk = false →
      (sendOutreach cfg u dealId sendOk logOk now st).2.1 = st) ∧
    (∀ deal, cfg.smtpConfigured = true → findDealReq st dealId = some deal →
      sendOk = true → logOk = true →
      sendOutreach cfg u dealId sendOk logOk now st =
        (200, appendLog st (sendLog u dealId deal now),
          [Eff.dbRead "business_ideas",
           Eff.mailSend (jsOr (getField deal "contact_email") ""),
           Eff.dbWrite "webhook_logs"])) := by
  refine ⟨fun h => by simp [sendOutreach, h], ?_, ?_, ?_⟩
  · intro h
    cases hc : cfg.smtpConfigured <;> simp [sendOutreach, hc, h]
  · intro h
    cases hc : cfg.smtpConfigured
    · simp [sendOutreach, hc]
    · cases hf : findDealReq st dealId <;> simp [sendOutreach, hc, hf, h]
  · intro deal hc hf hs hl
    simp [sendOutreach, hc, hf, hs, hl]

/-- C3 witness: with SMTP unconfigured the response is 503 and nothing
happens; with SMTP configured, a failed send leaves the store unchanged
and a successful send appends exactly the send_outreach log. -/
theorem C3_send_outreach_witness :
    sendOutreach cfgOff uPlain (some "d1") true true 5 st0 = (503, st0, []) ∧
    (sendOutreach cfgOn uPlain (some "d1") false true 5 st0).2.1 = st0 ∧
    sendOutreach cfgOn uPlain (some "d1") true true 5 st0 =
      (200, appendLog st0 (sendLog uPlain (some "d1") deal1 5),
        [Eff.dbRead "business_ideas", Eff.mailSend "bob@acme.com",
         Eff.dbWrite "webhook_logs"]) := by
  refine
    ⟨(C3_send_outreach_guard cfgOff uPlain (some "d1") true true 5 st0).1 rfl,
     (C3_send_outreach_guard cfgOn uPlain (some "d1") false true 5 st0).2.2.1 rfl,
     ?_⟩
  have h := (C3_send_outreach_guard cfgOn uPlain (some "d1") true true 5 st0).2.2.2
    deal1 rfl (by decide) rfl rfl
  rw [h]
  rfl

/-- C4: a request to any bearer-protected endpoint whose authorization
header is missing or lacks the Bearer prefix is rejected as 401 before the
handler runs: the store is unchanged and no external call happens,
whatever handler was wrapped. -/
theorem C4_auth_gate {α : Type} (getUser : String → Option AuthUser)
    (hdr : Option String) (handler : AuthUser → Store → α × Store × List Eff)
    (st : Store) (h : malformedAuth hdr = true) :
    withAuth getUser hdr handler st =
      (AuthResult.unauthenticated "No token provided", st, []) ∧
    (∀ f : α → Nat,
      (withAuth getUser hdr handler st).1.status f = 401) := by
  cases hdr with
  | none => exact ⟨rfl, fun f => rfl⟩
  | some s =>
    have hb : bearerOk s = false := by
      simpa [malformedAuth] using h
    constructor
    · simp [withAuth, hb]
    · intro f
      simp [withAuth, hb, AuthResult.status]

/-- C4 witness: a header without the Bearer prefix is rejected with 401
even around a handler that would write to the store. -/
theorem C4_auth_gate_witness :
    withAuth (fun _ => some uPlain) (some "Token abc")
      (fun _ s => (200, appendLog s (formLog "9" 0), [Eff.dbWrite "webhook_logs"]))
      st0 =
      (AuthResult.unauthenticated "No token provided", st0, []) :=
  (C4_auth_gate (fun _ => some uPlain) (some "Token abc")
    (fun _ s => (200, appendLog s (formLog "9" 0), [Eff.dbWrite "webhook_logs"]))
    st0 (by decide)).1

/-- C5: when a nonempty shared secret is configured, a missing or different
X-Webhook-Secret header is rejected with 401 and no log row is written;
when no secret is configured the check is skipped: the response is 200,
the body fields are echoed back with the server timestamp, and (when the
store accepts the insert) exactly one outreach_external log row lands. -/
theorem C5_external_secret (cfg : Config) (secretHdr userAgent : Option String)
    (body : Row) (logOk : Bool) (now : Nat) (st : Store) :
    (∀ s, cfg.webhookSecret = some s → s ≠ "" → secretHdr ≠ some s →
      outreachExternal cfg secretHdr userAgent body logOk now st =
        (401, none, st)) ∧
    (jsTruthy cfg.webhookSecret = false →
      (outreachExternal cfg secretHdr userAgent body logOk now st).1 = 200 ∧
      (outreachExternal cfg secretHdr userAgent body logOk now st).2.1 =
        some (echoOf body now) ∧
      (echoOf body now).timestamp = now ∧
      (logOk = true →
        (outreachExternal cfg secretHdr userAgent body logOk now st).2.2.webhook_logs =
          st.webhook_logs ++ [extLog body userAgent now] ∧
        (extLog body userAgent now).action = "outreach_external") ∧
      (logOk = false →
        (outreachExternal cfg secretHdr userAgent body logOk now st).2.2 = st)) := by
  constructor
  · intro s hs hne hhdr
    simp [outreachExternal, hs, jsTruthy, jsOr, hne, beq_iff_eq, hhdr]
  · intro h
    refine ⟨by simp [outreachExternal, h], by simp [outreachExternal, h], rfl,
      ?_, ?_⟩
    · intro hl
      subst hl
      exact ⟨by simp [outreachExternal, h, appendLog], rfl⟩
    · intro hl
      subst hl
      simp [outreachExternal, h]

/-- C5 witness: with secret sekret configured, a request with no secret
header is 401 and writes nothing; with no secret configured, a request is
echoed with status 200 and exactly one outreach_external log row lands. -/
theorem C5_external_secret_witness :
    outreachExternal cfgSec none none [] true 3 st0 = (401, none, st0) ∧
    (outreachExternal cfgOff none none [] true 3 st0).1 = 200 ∧
    (outreachExternal cfgOff none none [] true 3 st0).2.1 = some (echoOf [] 3) ∧
    (outreachExternal cfgOff none none [] true 3 st0).2.2.webhook_logs =
      st0.webhook_logs ++ [extLog [] none 3] := by
  have h401 := (C5_external_secret cfgSec none none [] true 3 st0).1 "sekret"
    rfl (by decide) (by decide)
  have h := (C5_external_secret cfgOff none none [] true 3 st0).2 (by decide)
  exact ⟨h401, h.1, h.2.1, (h.2.2.2.1 rfl).1⟩

/-- C6: for a forwarded trigger whose deal fetch succeeds, a truthy webhook
URL with a non-2xx outbound POST fails the whole request with 500 and no
log row is written; when the store accepts the insert, the
trigger_outreach log row is appended exactly when the POST succeeded or no
URL was supplied, and the response is then 200. -/
theorem C6_trigger_outreach_log (cfg : Config) (u : AuthUser)
    (dealId webhookUrl : Option String) (postOk logOk : Bool) (now : Nat)
    (st : Store) (deal : Row) (hdeal : findDealReq st dealId = some deal) :
    (jsTruthy webhookUrl = true → postOk = false →
      triggerOutreach cfg u dealId webhookUrl postOk logOk now st =
        (500, st,
          [Eff.dbRead "business_ideas",
           Eff.httpPost (jsOr webhookUrl "") (outboundSecret cfg)])) ∧
    (logOk = true →
      ((postOk = true ∨ jsTruthy webhookUrl = false) ↔
        (triggerOutreach cfg u dealId webhookUrl postOk logOk now st).2.1.webhook_logs =
          st.webhook_logs ++ [triggerLog u dealId webhookUrl deal now])) ∧
    (logOk = true → (postOk = true ∨ jsTruthy webhookUrl = false) →
      (triggerOutreach cfg u dealId webhookUrl postOk logOk now st).1 = 200) := by
  refine ⟨?_, ?_, ?_⟩
  · intro ht hp
    simp [triggerOutreach, hdeal, ht, hp]
  · intro hl
    constructor
    · intro hor
      cases ht : jsTruthy webhookUrl with
      | false => simp [triggerOutreach, hdeal, ht, hl, appendLog]
      | true =>
        cases hor with
        | inl hp => simp [triggerOutreach, hdeal, ht, hp, hl, appendLog]
        | inr hf => rw [hf] at ht; exact absurd ht (by simp)
    · intro heq
      by_cases ht : jsTruthy webhookUrl = true
      · by_cases hp : postOk = true
        · exact Or.inl hp
        · have hp0 : postOk = false := by simpa using hp
          exfalso
          simp [triggerOutreach, hdeal, ht, hp0] at heq
      · exact Or.inr (by simpa using ht)
  · intro hl hor
    cases ht : jsTruthy webhookUrl with
    | false => simp [triggerOutreach, hdeal, ht, hl]
    | true =>
      cases hor with
      | inl hp => simp [triggerOutreach, hdeal, ht, hp, hl]
      | inr hf => rw [hf] at ht; exact absurd ht (by simp)

/-- C6 witness: on a store holding deal d1, a successful POST appends the
trigger_outreach log, and a failed POST yields 500 with the store
untouched. -/
theorem C6_trigger_outreach_witness :
    (triggerOutreach cfgOn uPlain (some "d1") (some "https://hook.example")
        true true 4 st0).2.1.webhook_logs =
      st0.webhook_logs ++
        [triggerLog uPlain (some "d1") (some "https://hook.example") deal1 4] ∧
    triggerOutreach cfgOn uPlain (some "d1") (some "https://hook.example")
        false true 4 st0 =
      (500, st0,
        [Eff.dbRead "business_ideas",
         Eff.httpPost "https://hook.example" ""]) := by
  have h1 := (C6_trigger_outreach_log cfgOn uPlain (some "d1")
    (some "https://hook.example") true true 4 st0 deal1 (by decide)).2.1 rfl
  have h2 := (C6_trigger_outreach_log cfgOn uPlain (some "d1")
    (some "https://hook.example") false true 4 st0 deal1 (by decide)).1
    (by decide) rfl
  refine ⟨h1.mp (Or.inl rfl), ?_⟩
  rw [h2]
  rfl

/-- C7: the form webhook forces source and stage to the fixed literals no
matter what the body supplied, and after a successful insert (when the
store accepts the log insert) exactly one form_submission log row lands,
referencing the id of the deal just created. -/
theorem C7_google_form_forced_fields (body : Row) (logOk : Bool) (now : Nat)
    (st : Store) :
    (googleFormWebhook body true logOk now st).1 = 201 ∧
    (googleFormWebhook body true logOk now st).2.business_ideas =
      st.business_ideas ++ [(toString st.nextId, formRow body)] ∧
    getField (formRow body) "source" = some "google_form" ∧
    getField (formRow body) "stage" = some "submitted" ∧
    (logOk = true →
      (googleFormWebhook body true logOk now st).2.webhook_logs =
        st.webhook_logs ++ [formLog (toString st.nextId) now] ∧
      (formLog (toString st.nextId) now).action = "form_submission" ∧
      (formLog (toString st.nextId) now).business_idea_id =
        some (toString st.nextId)) := by
  refine ⟨?_, ?_, ?_, ?_, ?_⟩
  · cases logOk <;> simp [googleFormWebhook, appendLog]
  · cases logOk <;> simp [googleFormWebhook, appendLog]
  · rw [formRow, getField_setField_ne _ _ _ _ (by decide)]
    exact getField_setField_self _ _ _
  · exact getField_setField_self _ _ _
  · intro h
    subst h
    exact ⟨by simp [googleFormWebhook, appendLog], rfl, rfl⟩

/-- C7 witness: a body that tries to supply its own source and stage still
lands with the forced literals, and the log references the new id 7. -/
theorem C7_google_form_witness :
    (googleFormWebhook formBody true true 6 st0).1 = 201 ∧
    getField (formRow formBody) "source" = some "google_form" ∧
    getField (formRow formBody) "stage" = some "submitted" ∧
    (googleFormWebhook formBody true true 6 st0).2.webhook_logs =
      st0.webhook_logs ++ [formLog "7" 6] := by
  have h := C7_google_form_forced_fields formBody true 6 st0
  have h5 := h.2.2.2.2 rfl
  refine ⟨h.1, h.2.2.1, h.2.2.2.1, ?_⟩
  rw [h5.1]
  rfl

/-- C8: the webhook-log listing is the most recent 50 rows: never more than
50 entries, sorted by trigger time descending, each joined with its deal
row when its referenced deal exists. -/
theorem C8_webhooks_listing (u : AuthUser) (st : Store) :
    getWebhooks u st = (200, webhookLogsQuery st) ∧
    (webhookLogsQuery st).length ≤ 50 ∧
    List.Pairwise (fun a b : LogRow × Option Row =>
      b.1.triggered_at ≤ a.1.triggered_at) (webhookLogsQuery st) ∧
    (∀ x ∈ webhookLogsQuery st,
      x.2 = x.1.business_idea_id.bind (findDeal st)) :=
  ⟨rfl, webhookLogsQuery_length st, webhookLogsQuery_sorted st,
    webhookLogsQuery_join st⟩

/-- C8 witness: three logs stored out of order come back newest first, the
one referencing deal d1 joined with that deal, the others unjoined. -/
theorem C8_webhooks_listing_witness :
    webhookLogsQuery stL = [(logA, some deal1), (logC, none), (logB, none)] ∧
    (logA, some deal1) ∈ webhookLogsQuery stL ∧
    ((logA, some deal1) : LogRow × Option Row).2 =
      logA.business_idea_id.bind (findDeal stL) := by
  have hq : webhookLogsQuery stL =
      [(logA, some deal1), (logC, none), (logB, none)] := by
    simp +decide [webhookLogsQuery, List.mergeSort, stL, logA, logB, logC,
      findDeal, deal1, List.find?]
  have hmem : (logA, some deal1) ∈ webhookLogsQuery stL := by
    rw [hq]
    exact List.mem_cons_self _ _
  exact ⟨hq, hmem, (C8_webhooks_listing uPlain stL).2.2.2 _ hmem⟩

/-- C9: with the store reporting no error, deletion answers the same fixed
success message whatever the store contents, and deleting the same id a
second time returns the same response and the same final store state. -/
theorem C9_delete_idempotent (u : AuthUser) (delId : String) (st : Store) :
    (deleteDeal u delId true st).1 = 200 ∧
    (deleteDeal u delId true st).2.1 = some "Deal deleted successfully" ∧
    deleteDeal u delId true ((deleteDeal u delId true st).2.2) =
      deleteDeal u delId true st := by
  refine ⟨rfl, rfl, ?_⟩
  simp [deleteDeal, List.filter_filter]

/-- C10: every outbound POST of the forwarded trigger carries an
X-Webhook-Secret header equal to the configured secret with an
empty-string fallback, and the handler behaves identically under no
configured secret and under a configured empty secret. -/
theorem C10_outbound_secret_header (cfg : Config) (u : AuthUser)
    (dealId webhookUrl : Option String) (postOk logOk : Bool) (now : Nat)
    (st : Store) :
    (∀ url s, Eff.httpPost url s ∈
        (triggerOutreach cfg u dealId webhookUrl postOk logOk now st).2.2 →
      s = outboundSecret cfg) ∧
    outboundSecret { smtpConfigured := cfg.smtpConfigured, webhookSecret := none } =
      outboundSecret { smtpConfigured := cfg.smtpConfigured, webhookSecret := some "" } ∧
    triggerOutreach { smtpConfigured := cfg.smtpConfigured, webhookSecret := none }
        u dealId webhookUrl postOk logOk now st =
      triggerOutreach { smtpConfigured := cfg.smtpConfigured, webhookSecret := some "" }
        u dealId webhookUrl postOk logOk now st := by
  refine ⟨?_, rfl, rfl⟩
  intro url s hmem
  cases hf : findDealReq st dealId with
  | none => simp [triggerOutreach, hf] at hmem
  | some deal =>
    cases ht : jsTruthy webhookUrl with
    | false =>
      cases hl : logOk <;> simp [triggerOutreach, hf, ht, hl] at hmem
    | true =>
      cases hp : postOk with
      | false =>
        simp [triggerOutreach, hf, ht, hp] at hmem
        exact hmem.2
      | true =>
        cases hl : logOk <;>
          · simp [triggerOutreach, hf, ht, hp, hl] at hmem
            exact hmem.2

/-- C10 witness: a concrete successful forwarded trigger with no configured
secret performs an outbound POST whose secret header is the empty string. -/
theorem C10_outbound_secret_witness :
    Eff.httpPost "https://hook.example" "" ∈
      (triggerOutreach cfgOn uPlain (some "d1") (some "https://hook.example")
        true true 4 st0).2.2 ∧
    "" = outboundSecret cfgOn := by
  have hmem : Eff.httpPost "https://hook.example" "" ∈
      (triggerOutreach cfgOn uPlain (some "d1") (some "https://hook.example")
        true true 4 st0).2.2 := by decide
  exact ⟨hmem, (C10_outbound_secret_header cfgOn uPlain (some "d1")
    (some "https://hook.example") true true 4 st0).1 "https://hook.example" ""
    hmem⟩

end DealFlow
